import Mathlib

/-!
Shallow embedding of the rendercad-ai API client (src/errors.js and
src/index.js): the typed error taxonomy, the response-classification
logic of the private request helper, the image encoder, and the five
public operations.  Network transport and the file system are modelled
as explicit oracles passed to the operations.
-/

namespace RenderCAD

/--
Model of the parsed JSON response body.  The client inspects only the
fields `success`, `token_valid`, `authenticated`, `message` and `error`;
each is `none` when the field is absent from the JSON object.  The
empty literal models the empty object substituted when JSON parsing of
the body fails.
-/
structure Body where
  success : Option Bool := none
  token_valid : Option Bool := none
  authenticated : Option Bool := none
  message : Option String := none
  error : Option String := none
deriving DecidableEq, Repr

/-- Tag distinguishing the base error class from its five specializations
(the `name` field set by each constructor in src/errors.js). -/
inductive ErrorName where
  | renderCADError
  | badRequestError
  | unauthorizedError
  | notFoundError
  | rateLimitError
  | serverError
deriving DecidableEq, Repr

/-- Shape shared by RenderCADError and its subclasses in src/errors.js:
a message, an optional numeric status code and an optional raw body. -/
structure RenderCADError where
  name : ErrorName
  message : String
  statusCode : Option Nat
  response : Option Body
deriving DecidableEq, Repr

/-- JavaScript `a || d` on an optional string `a` and a default `d`:
`undefined` and the empty string are falsy. -/
def jsOr : Option String → String → String
  | none, d => d
  | some s, d => if s = "" then d else s

/-- Constructor of the base class RenderCADError (src/errors.js line 4). -/
def mkRenderCADError (message : String) (statusCode : Option Nat)
    (response : Option Body) : RenderCADError :=
  ⟨.renderCADError, message, statusCode, response⟩

/-- Constructor of BadRequestError (src/errors.js line 17). -/
def mkBadRequestError (message : Option String) (response : Option Body) :
    RenderCADError :=
  ⟨.badRequestError, jsOr message "Invalid request", some 400, response⟩

/-- Constructor of UnauthorizedError (src/errors.js line 27). -/
def mkUnauthorizedError (message : Option String) (response : Option Body) :
    RenderCADError :=
  ⟨.unauthorizedError, jsOr message "Invalid API token", some 401, response⟩

/-- Constructor of NotFoundError (src/errors.js line 37). -/
def mkNotFoundError (message : Option String) (response : Option Body) :
    RenderCADError :=
  ⟨.notFoundError, jsOr message "Resource not found", some 404, response⟩

/-- Constructor of RateLimitError (src/errors.js line 47). -/
def mkRateLimitError (message : Option String) (response : Option Body) :
    RenderCADError :=
  ⟨.rateLimitError, jsOr message "Monthly limit exceeded", some 429, response⟩

/-- Constructor of ServerError (src/errors.js line 57). -/
def mkServerError (message : Option String) (response : Option Body) :
    RenderCADError :=
  ⟨.serverError, jsOr message "Server error", some 500, response⟩

/--
Outcome of one `fetch` call, as the oracle for the transport layer:
either the promise rejects with an underlying message (DNS failure,
connection refused, timeout), or a response arrives with an HTTP status
and a body.  The body is `none` when `response.json()` rejects, that is
when the body is not parseable as JSON.
-/
inductive FetchOutcome where
  | failure (message : String)
  | resp (status : Nat) (body : Option Body)
deriving DecidableEq, Repr

/--
Classification of a fetched response by the private request helper
(src/index.js lines 103-131), applied after `data` has been obtained
from `response.json().catch(function that yields the empty object)`.
The condition `200 ≤ status ∧ status ≤ 299` is `response.ok`.
-/
def classify (status : Nat) (data : Body) : Except RenderCADError Body :=
  if data.success = some false then
    if data.token_valid = some false ∨ data.authenticated = some false then
      .error (mkUnauthorizedError (some (jsOr data.message "Invalid API token")) (some data))
    else
      .error (mkBadRequestError
        (some (jsOr data.message (jsOr data.error "Request failed"))) (some data))
  else if 200 ≤ status ∧ status ≤ 299 then
    .ok data
  else
    let errorMessage := jsOr data.message (jsOr data.error ("HTTP " ++ toString status))
    match status with
    | 400 => .error (mkBadRequestError (some errorMessage) (some data))
    | 401 => .error (mkUnauthorizedError (some errorMessage) (some data))
    | 404 => .error (mkNotFoundError (some errorMessage) (some data))
    | 429 => .error (mkRateLimitError (some errorMessage) (some data))
    | 500 => .error (mkServerError (some errorMessage) (some data))
    | _ => .error (mkRenderCADError errorMessage (some status) (some data))

/--
The private request helper (src/index.js lines 82-142) as a function of
the transport outcome.  A transport rejection is wrapped into the base
error with no status code and no body; an unparseable body is replaced
by the empty object before classification; typed errors thrown inside
the `try` block are rethrown unchanged by the `catch` clause.
-/
def request : FetchOutcome → Except RenderCADError Body
  | .failure msg => .error (mkRenderCADError ("Request failed: " ++ msg) none none)
  | .resp status body? => classify status (body?.getD {})

/--
Failure of a public operation: either a typed taxonomy error, or a raw
file-system rejection that propagates out of the image encoder without
reclassification (src/index.js line 169, see also section 7 of the
design document).
-/
inductive CallError where
  | api (e : RenderCADError)
  | fsFailure (message : String)
deriving DecidableEq, Repr

/-- Input accepted by the image encoder: a string (data URL, bare base64
or file path), a binary Buffer as its byte list, or any other value. -/
inductive ImageInput where
  | str (s : String)
  | buffer (bytes : List Nat)
  | other
deriving DecidableEq, Repr

/-- Character of the standard base64 alphabet at index `n`. -/
def b64Char (n : Nat) : Char :=
  "ABCDEFGHIJKLMNOPQRSTUVWXYZabcdefghijklmnopqrstuvwxyz0123456789+/".toList.getD n
    (Char.ofNat 65)

/-- Base64 encoding of a byte list, as produced by the Node call
`buffer.toString` with argument base64. -/
def base64Encode : List Nat → String
  | [] => ""
  | [a] =>
    let n := (a % 256) * 65536
    String.mk [b64Char (n / 262144 % 64), b64Char (n / 4096 % 64)] ++ "=="
  | [a, b] =>
    let n := (a % 256) * 65536 + (b % 256) * 256
    String.mk [b64Char (n / 262144 % 64), b64Char (n / 4096 % 64),
      b64Char (n / 64 % 64)] ++ "="
  | a :: b :: c :: rest =>
    let n := (a % 256) * 65536 + (b % 256) * 256 + (c % 256)
    String.mk [b64Char (n / 262144 % 64), b64Char (n / 4096 % 64),
      b64Char (n / 64 % 64), b64Char (n % 64)] ++ base64Encode rest

/-- Node `path.extname` composed with `toLowerCase`, for the usual
slash-separated paths: the suffix of the last path segment from its
last dot, empty when the segment has no dot or only a leading dot. -/
def extnameLower (p : String) : String :=
  let base := (p.splitOn "/").getLastD ""
  let parts := base.splitOn "."
  match parts with
  | [] => ""
  | [_] => ""
  | ["", _] => ""
  | _ => ("." ++ (parts.getLastD "")).toLower

/-- Extension table of the encoder (src/index.js lines 173-180). -/
def mimeFromExt (ext : String) : String :=
  if ext = ".jpg" ∨ ext = ".jpeg" then "image/jpeg"
  else if ext = ".png" then "image/png"
  else if ext = ".gif" then "image/gif"
  else if ext = ".webp" then "image/webp"
  else "image/jpeg"

/-- Magic-number sniffing on a Buffer (src/index.js lines 183-190);
indexing past the end of the byte list compares unequal, as the
JavaScript strict equality against an undefined element does. -/
def sniffBufferMime (bytes : List Nat) : String :=
  if bytes[0]? = some 0x89 ∧ bytes[1]? = some 0x50 then "image/png"
  else if bytes[0]? = some 0x47 ∧ bytes[1]? = some 0x49 then "image/gif"
  else if bytes[0]? = some 0x52 ∧ bytes[1]? = some 0x49 ∧
      bytes[2]? = some 0x46 ∧ bytes[3]? = some 0x46 then "image/webp"
  else "image/jpeg"

/-- JavaScript `startsWith` on strings, over the character lists. -/
def strStartsWith (s pre : String) : Bool :=
  pre.toList.isPrefixOf s.toList

/-- JavaScript `includes` specialized to a one-character needle, over
the character list. -/
def strContainsChar (s : String) (ch : Char) : Bool :=
  s.toList.contains ch

/--
The private image encoder (src/index.js lines 151-197), with the file
system supplied as an oracle `readFile`: a rejection of `fs.readFile`
propagates as a raw failure, not as a taxonomy error.
-/
def encodeImage (readFile : String → Except String (List Nat)) :
    ImageInput → Except CallError String
  | .str s =>
    if strStartsWith s "data:image/" then .ok s
    else if !strContainsChar s '/' then .ok ("data:image/jpeg;base64," ++ s)
    else
      match readFile s with
      | .error msg => .error (.fsFailure msg)
      | .ok bytes =>
        let mimeType := mimeFromExt (extnameLower s)
        .ok (("data:" ++ mimeType ++ ";base64,") ++ base64Encode bytes)
  | .buffer bytes =>
    .ok (("data:" ++ sniffBufferMime bytes ++ ";base64,") ++ base64Encode bytes)
  | .other =>
    .error (.api (mkBadRequestError
      (some "Invalid image format. Expected Buffer, file path, or base64 string.") none))

/-- Hexadecimal digit character for `n` below 16. -/
def hexDigit (n : Nat) : Char :=
  "0123456789ABCDEF".toList.getD n (Char.ofNat 48)

/-- Percent escape of one byte. -/
def percentEncodeByte (b : Nat) : String :=
  "%" ++ String.mk [hexDigit (b / 16 % 16), hexDigit (b % 16)]

/-- UTF-8 bytes of one character. -/
def utf8Bytes (ch : Char) : List Nat :=
  ((String.mk [ch]).toUTF8.toList.map fun b => b.toNat)

/-- JavaScript `encodeURIComponent`: characters other than the
unreserved set (alphanumerics and `- _ . ! ~ * ( )` and the single
quote) are percent encoded byte by byte. -/
def encodeURIComponent (s : String) : String :=
  String.join (s.toList.map fun ch =>
    if ch.isAlphanum || [45, 95, 46, 33, 126, 42, 39, 40, 41].contains ch.toNat then
      String.mk [ch]
    else
      String.join ((utf8Bytes ch).map percentEncodeByte))

/-- One HTTP request as built by a public operation: full URL, method
and optional serialized body. -/
structure RequestSpec where
  url : String
  method : String
  body : Option String := none
deriving DecidableEq, Repr

/-- Observable behaviour of one public operation call: the HTTP request
it issued, if any, and its result.  A `none` request records that the
call failed locally before reaching the network layer. -/
structure OpCall where
  httpRequest : Option RequestSpec
  result : Except CallError Body
deriving Repr

/-- Client state (src/index.js lines 39-42): mutable bearer token and
base URL. -/
structure RenderCADClient where
  apiToken : Option String
  baseUrl : String
deriving DecidableEq, Repr

/-- JavaScript truthiness of `this.apiToken`: absent and empty-string
tokens are both missing. -/
def tokenPresent (c : RenderCADClient) : Bool :=
  match c.apiToken with
  | none => false
  | some t => t != ""

/-- Error thrown by the token precondition of renderImage, checkStatus
and checkAccount (src/index.js lines 221-223). -/
def tokenMissingError : RenderCADError :=
  mkUnauthorizedError
    (some "API token is required. Set it in constructor or use setApiToken().") none

/-- JSON body sent by renderImage, with the encoded image inline. -/
def renderImageBody (imageData : String) : String :=
  "\x7b\"image\":\"" ++ imageData ++ "\"\x7d"

/-- Public operation renderImage (src/index.js lines 220-231). -/
def renderImage (c : RenderCADClient) (readFile : String → Except String (List Nat))
    (image : ImageInput) (outcome : FetchOutcome) : OpCall :=
  if !tokenPresent c then
    { httpRequest := none, result := .error (.api tokenMissingError) }
  else
    match encodeImage readFile image with
    | .error e => { httpRequest := none, result := .error e }
    | .ok imageData =>
      { httpRequest := some
          { url := c.baseUrl ++ "/backend/render.php?action=render"
            method := "POST"
            body := some (renderImageBody imageData) }
        result := (request outcome).mapError CallError.api }

/-- Public operation checkStatus (src/index.js lines 244-256). -/
def checkStatus (c : RenderCADClient) (jobId : String) (outcome : FetchOutcome) :
    OpCall :=
  if !tokenPresent c then
    { httpRequest := none, result := .error (.api tokenMissingError) }
  else if jobId = "" then
    { httpRequest := none
      result := .error (.api (mkBadRequestError (some "jobId is required") none)) }
  else
    { httpRequest := some
        { url := c.baseUrl ++ "/backend/render.php?action=status&job_id=" ++
            encodeURIComponent jobId
          method := "GET" }
      result := (request outcome).mapError CallError.api }

/-- Public operation checkAccount (src/index.js lines 269-277). -/
def checkAccount (c : RenderCADClient) (outcome : FetchOutcome) : OpCall :=
  if !tokenPresent c then
    { httpRequest := none, result := .error (.api tokenMissingError) }
  else
    { httpRequest := some
        { url := c.baseUrl ++ "/backend/auth.php?action=check", method := "GET" }
      result := (request outcome).mapError CallError.api }

/-- Optional app metadata accepted by requestDeviceCode. -/
structure DeviceCodeOptions where
  app_name : Option String := none
  app_type : Option String := none
  app_version : Option String := none
deriving DecidableEq, Repr

/-- Query parameters appended by requestDeviceCode (src/index.js lines
299-309): each option is appended only when truthy. -/
def deviceCodeParams (o : DeviceCodeOptions) : List (String × String) :=
  (match o.app_name with
   | some v => if v = "" then [] else [("app_name", v)]
   | none => []) ++
  (match o.app_type with
   | some v => if v = "" then [] else [("app_type", v)]
   | none => []) ++
  (match o.app_version with
   | some v => if v = "" then [] else [("app_version", v)]
   | none => [])

/-- Serialization of one URLSearchParams component: alphanumerics and
`* - . _` kept, space written as plus, every other character percent
encoded byte by byte. -/
def formEncode (s : String) : String :=
  String.join (s.toList.map fun ch =>
    if ch.toNat = 32 then "+"
    else if ch.isAlphanum || [42, 45, 46, 95].contains ch.toNat then String.mk [ch]
    else String.join ((utf8Bytes ch).map percentEncodeByte))

/-- Node URLSearchParams `toString` over an append-ordered list. -/
def searchParamsToString (ps : List (String × String)) : String :=
  String.intercalate "&" (ps.map fun p => formEncode p.1 ++ "=" ++ formEncode p.2)

/-- Public operation requestDeviceCode (src/index.js lines 298-317); no
precondition, POST with no body. -/
def requestDeviceCode (c : RenderCADClient) (o : DeviceCodeOptions)
    (outcome : FetchOutcome) : OpCall :=
  let queryString := searchParamsToString (deviceCodeParams o)
  let endpoint := "/backend/auth.php?action=request_device_code" ++
    (if queryString = "" then "" else "&" ++ queryString)
  { httpRequest := some { url := c.baseUrl ++ endpoint, method := "POST" }
    result := (request outcome).mapError CallError.api }

/-- Public operation pollDeviceCode (src/index.js lines 332-340); the
only precondition is a truthy device code, checked before the network
call. -/
def pollDeviceCode (c : RenderCADClient) (code : String) (outcome : FetchOutcome) :
    OpCall :=
  if code = "" then
    { httpRequest := none
      result := .error (.api (mkBadRequestError (some "Device code is required") none)) }
  else
    { httpRequest := some
        { url := c.baseUrl ++ "/backend/auth.php?action=poll_device_code&code=" ++
            encodeURIComponent code
          method := "GET" }
      result := (request outcome).mapError CallError.api }

/-- A result that the claims call typed: a parsed body returned as
success, or an error of the taxonomy. -/
def typedResult (r : Except CallError Body) : Prop :=
  (∃ b, r = Except.ok b) ∨ ∃ e, r = Except.error (CallError.api e)

/-- Status code observation on a request result: `some` the statusCode
field when an error was raised, `none` on success. -/
def raisedStatusCode : Except RenderCADError Body → Option (Option Nat)
  | .error e => some e.statusCode
  | .ok _ => none

lemma jsOr_ne_empty (a : Option String) (d : String) (hd : d ≠ "") :
    jsOr a d ≠ "" := by
  cases a with
  | none => simpa [jsOr] using hd
  | some s => by_cases hs : s = "" <;> simp [jsOr, hs, hd]

lemma jsOr_some (m d : String) (hm : m ≠ "") : jsOr (some m) d = m := by
  simp [jsOr, hm]

lemma http_message_ne_empty (t : String) : ("HTTP " ++ t) ≠ "" := by
  intro hcon
  have hlen := congrArg String.length hcon
  simp [String.length_append] at hlen
  exact absurd hlen.1 (by decide)

lemma request_resp_some (status : Nat) (data : Body) :
    request (.resp status (some data)) = classify status data := rfl

lemma classify_success_false (status : Nat) (data : Body)
    (h : data.success = some false) :
    classify status data = .error
      (if data.token_valid = some false ∨ data.authenticated = some false then
        ⟨.unauthorizedError, jsOr data.message "Invalid API token", some 401, some data⟩
      else
        ⟨.badRequestError, jsOr data.message (jsOr data.error "Request failed"),
          some 400, some data⟩) := by
  have hu : jsOr data.message "Invalid API token" ≠ "" :=
    jsOr_ne_empty _ _ (by decide)
  have hb : jsOr data.message (jsOr data.error "Request failed") ≠ "" :=
    jsOr_ne_empty _ _ (jsOr_ne_empty _ _ (by decide))
  unfold classify
  rw [if_pos h]
  by_cases hf : data.token_valid = some false ∨ data.authenticated = some false
  · rw [if_pos hf, if_pos hf]
    simp [mkUnauthorizedError, jsOr_some _ _ hu]
  · rw [if_neg hf, if_neg hf]
    simp [mkBadRequestError, jsOr_some _ _ hb]

lemma classify_not_success_false (status : Nat) (data : Body)
    (h : ¬ data.success = some false) :
    classify status data =
      if 200 ≤ status ∧ status ≤ 299 then .ok data
      else .error (match status with
        | 400 => ⟨.badRequestError,
            jsOr data.message (jsOr data.error ("HTTP " ++ toString status)),
            some 400, some data⟩
        | 401 => ⟨.unauthorizedError,
            jsOr data.message (jsOr data.error ("HTTP " ++ toString status)),
            some 401, some data⟩
        | 404 => ⟨.notFoundError,
            jsOr data.message (jsOr data.error ("HTTP " ++ toString status)),
            some 404, some data⟩
        | 429 => ⟨.rateLimitError,
            jsOr data.message (jsOr data.error ("HTTP " ++ toString status)),
            some 429, some data⟩
        | 500 => ⟨.serverError,
            jsOr data.message (jsOr data.error ("HTTP " ++ toString status)),
            some 500, some data⟩
        | _ => ⟨.renderCADError,
            jsOr data.message (jsOr data.error ("HTTP " ++ toString status)),
            some status, some data⟩) := by
  have hmsg : jsOr data.message (jsOr data.error ("HTTP " ++ toString status)) ≠ "" :=
    jsOr_ne_empty _ _ (jsOr_ne_empty _ _ (http_message_ne_empty _))
  unfold classify
  rw [if_neg h]
  by_cases hok : 200 ≤ status ∧ status ≤ 299
  · rw [if_pos hok, if_pos hok]
  · rw [if_neg hok, if_neg hok]
    split <;>
      simp [mkBadRequestError, mkUnauthorizedError, mkNotFoundError,
        mkRateLimitError, mkServerError, mkRenderCADError, jsOr_some _ _ hmsg]

lemma typedResult_mapError (r : Except RenderCADError Body) :
    typedResult (r.mapError CallError.api) := by
  cases r with
  | ok b => exact Or.inl ⟨b, rfl⟩
  | error e => exact Or.inr ⟨e, rfl⟩

lemma encodeImage_fsFailure (readFile : String → Except String (List Nat))
    (image : ImageInput) (m : String)
    (h : encodeImage readFile image = .error (.fsFailure m)) :
    ∃ p, image = .str p ∧ readFile p = .error m := by
  cases image with
  | str s =>
    refine ⟨s, rfl, ?_⟩
    simp only [encodeImage] at h
    split at h
    · simp at h
    · split at h
      · simp at h
      · cases hrf : readFile s with
        | error msg =>
          simp only [hrf, Except.error.injEq, CallError.fsFailure.injEq] at h
          simp [hrf, h]
        | ok bytes => simp [hrf] at h
  | buffer bytes => simp [encodeImage] at h
  | other => simp [encodeImage] at h

/--
Claim C1, counterexample: with a token configured, calling renderImage
with the file path images/car.png while the file-system read rejects
makes the call fail with a raw file-system error that belongs to no
variant of the typed taxonomy, so the claim that every failure of a
public operation is a typed taxonomy error is false.
-/
theorem C1_counterexample :
    (renderImage ⟨some "tok", "https://rendercad.ai"⟩
        (fun _ => .error "ENOENT: no such file or directory, open images/car.png")
        (.str "images/car.png") (.resp 200 (some {}))).result =
      .error (.fsFailure "ENOENT: no such file or directory, open images/car.png") := rfl

/--
Claim C1, amended: every public operation call produces exactly one of
a parsed body returned as success or a raised error of the typed
taxonomy, except that a file-system read rejection during the file-path
branch of the renderImage image encoding propagates as a raw untyped
input-output error.
-/
theorem C1_amended (c : RenderCADClient)
    (readFile : String → Except String (List Nat)) (image : ImageInput)
    (o : DeviceCodeOptions) (jobId code : String) (outcome : FetchOutcome) :
    (typedResult (renderImage c readFile image outcome).result ∨
      ∃ p m, image = .str p ∧ readFile p = .error m ∧
        (renderImage c readFile image outcome).result = .error (.fsFailure m)) ∧
    typedResult (checkStatus c jobId outcome).result ∧
    typedResult (checkAccount c outcome).result ∧
    typedResult (requestDeviceCode c o outcome).result ∧
    typedResult (pollDeviceCode c code outcome).result := by
  refine ⟨?_, ?_, ?_, ?_, ?_⟩
  · unfold renderImage
    cases ht : tokenPresent c with
    | false => exact Or.inl (Or.inr ⟨tokenMissingError, by simp⟩)
    | true =>
      simp only [Bool.not_true, Bool.false_eq_true, if_false]
      cases himg : encodeImage readFile image with
      | ok d => exact Or.inl (typedResult_mapError _)
      | error e =>
        cases e with
        | api er => exact Or.inl (Or.inr ⟨er, rfl⟩)
        | fsFailure m =>
          obtain ⟨p, hp, hrf⟩ := encodeImage_fsFailure readFile image m himg
          exact Or.inr ⟨p, m, hp, hrf, rfl⟩
  · unfold checkStatus
    cases ht : tokenPresent c with
    | false => exact Or.inr ⟨tokenMissingError, by simp⟩
    | true =>
      by_cases hj : jobId = "" <;>
        simp only [Bool.not_true, Bool.false_eq_true, if_false, hj, if_true, if_false]
      · exact Or.inr ⟨_, rfl⟩
      · exact typedResult_mapError _
  · unfold checkAccount
    cases ht : tokenPresent c with
    | false => exact Or.inr ⟨tokenMissingError, by simp⟩
    | true =>
      simp only [Bool.not_true, Bool.false_eq_true, if_false]
      exact typedResult_mapError _
  · exact typedResult_mapError _
  · unfold pollDeviceCode
    by_cases hc : code = "" <;> simp only [hc, if_true, if_false]
    · exact Or.inr ⟨_, rfl⟩
    · exact typedResult_mapError _

/--
Claim C2, counterexample: a response with HTTP status 200 whose body is
not parseable as JSON does not raise the generic base error; the parse
failure is swallowed and the call succeeds with the empty object.
-/
theorem C2_counterexample : request (.resp 200 none) = .ok {} := rfl

/--
Claim C2, amended: a network or transport failure raises the base
error carrying the underlying failure message behind the prefix
Request failed, with no status code and no attached body; a response
body that is not parseable as JSON is instead replaced by the empty
parsed object and classified by status, so a 2xx status returns the
empty object as success.
-/
theorem C2_amended (msg : String) (status : Nat)
    (h1 : 200 ≤ status) (h2 : status ≤ 299) :
    request (.failure msg) =
      .error ⟨.renderCADError, "Request failed: " ++ msg, none, none⟩ ∧
    request (.resp status none) = .ok {} := by
  constructor
  · rfl
  · show classify status {} = .ok {}
    unfold classify
    rw [if_neg (by decide : ¬ (({} : Body).success = some false)), if_pos ⟨h1, h2⟩]

/-- Witness for C2_amended at a DNS failure and at status 200. -/
theorem C2_amended_witness :
    request (.failure "getaddrinfo ENOTFOUND rendercad.ai") =
      .error ⟨.renderCADError,
        "Request failed: getaddrinfo ENOTFOUND rendercad.ai", none, none⟩ ∧
    request (.resp 200 none) = .ok {} :=
  C2_amended "getaddrinfo ENOTFOUND rendercad.ai" 200 (by decide) (by decide)

/--
Claim C3, confirmed: whenever the parsed body carries success false,
the call raises the credential error when the body also carries
token_valid false or authenticated false, and otherwise the
malformed-request error with the message or error field of the body or
the fallback text, in both cases for every HTTP status (200 included),
so this classification precedes the status-code classification.
-/
theorem C3 (status : Nat) (data : Body) (h : data.success = some false) :
    request (.resp status (some data)) = .error
      (if data.token_valid = some false ∨ data.authenticated = some false then
        ⟨.unauthorizedError, jsOr data.message "Invalid API token", some 401, some data⟩
      else
        ⟨.badRequestError, jsOr data.message (jsOr data.error "Request failed"),
          some 400, some data⟩) :=
  classify_success_false status data h

/-- Witness for C3 at HTTP status 200 with token_valid false. -/
theorem C3_witness :
    request (.resp 200 (some { success := some false, token_valid := some false })) =
      .error ⟨.unauthorizedError, "Invalid API token", some 401,
        some { success := some false, token_valid := some false }⟩ :=
  C3 200 { success := some false, token_valid := some false } rfl

/--
Claim C4, confirmed: when the parsed body does not carry success false,
a status in the 200 to 299 range returns the body unchanged, and any
other status raises the variant of the table, 400 malformed-request,
401 credential, 404 not-found, 429 rate-limit, 500 server error and
anything else the base error carrying the literal status code, each
with the parsed body attached.
-/
theorem C4 (status : Nat) (data : Body) (h : data.success ≠ some false) :
    (200 ≤ status → status ≤ 299 →
      request (.resp status (some data)) = .ok data) ∧
    (status = 400 → request (.resp status (some data)) = .error
      ⟨.badRequestError, jsOr data.message (jsOr data.error "HTTP 400"),
        some 400, some data⟩) ∧
    (status = 401 → request (.resp status (some data)) = .error
      ⟨.unauthorizedError, jsOr data.message (jsOr data.error "HTTP 401"),
        some 401, some data⟩) ∧
    (status = 404 → request (.resp status (some data)) = .error
      ⟨.notFoundError, jsOr data.message (jsOr data.error "HTTP 404"),
        some 404, some data⟩) ∧
    (status = 429 → request (.resp status (some data)) = .error
      ⟨.rateLimitError, jsOr data.message (jsOr data.error "HTTP 429"),
        some 429, some data⟩) ∧
    (status = 500 → request (.resp status (some data)) = .error
      ⟨.serverError, jsOr data.message (jsOr data.error "HTTP 500"),
        some 500, some data⟩) ∧
    (¬(200 ≤ status ∧ status ≤ 299) → status ≠ 400 → status ≠ 401 →
      status ≠ 404 → status ≠ 429 → status ≠ 500 →
      request (.resp status (some data)) = .error
        ⟨.renderCADError,
          jsOr data.message (jsOr data.error ("HTTP " ++ toString status)),
          some status, some data⟩) := by
  refine ⟨?_, ?_, ?_, ?_, ?_, ?_, ?_⟩
  · intro ha hb
    rw [request_resp_some, classify_not_success_false status data h, if_pos ⟨ha, hb⟩]
  · rintro rfl
    rw [request_resp_some, classify_not_success_false 400 data h, if_neg (by decide)]
    rfl
  · rintro rfl
    rw [request_resp_some, classify_not_success_false 401 data h, if_neg (by decide)]
    rfl
  · rintro rfl
    rw [request_resp_some, classify_not_success_false 404 data h, if_neg (by decide)]
    rfl
  · rintro rfl
    rw [request_resp_some, classify_not_success_false 429 data h, if_neg (by decide)]
    rfl
  · rintro rfl
    rw [request_resp_some, classify_not_success_false 500 data h, if_neg (by decide)]
    rfl
  · intro hok h400 h401 h404 h429 h500
    rw [request_resp_some, classify_not_success_false status data h, if_neg hok]
    split
    · exact absurd rfl h400
    · exact absurd rfl h401
    · exact absurd rfl h404
    · exact absurd rfl h429
    · exact absurd rfl h500
    · rfl

/-- Witness for C4 at statuses 200, 404 and 503. -/
theorem C4_witness :
    request (.resp 200 (some { message := some "hi" })) =
      .ok { message := some "hi" } ∧
    request (.resp 404 (some {})) =
      .error ⟨.notFoundError, "HTTP 404", some 404, some {}⟩ ∧
    request (.resp 503 (some {})) =
      .error ⟨.renderCADError, "HTTP 503", some 503, some {}⟩ :=
  ⟨(C4 200 { message := some "hi" } (by decide)).1 (by decide) (by decide),
   (C4 404 {} (by decide)).2.2.2.1 rfl,
   (C4 503 {} (by decide)).2.2.2.2.2.2 (by decide) (by decide) (by decide)
     (by decide) (by decide) (by decide)⟩

/--
Claim C5, counterexample: an HTTP 429 response whose body carries
success false is classified by the success-false rule before the
status-code rule, so it raises the malformed-request error with status
code 400, not the rate-limit error, and the claim quantified over all
JSON bodies is false.
-/
theorem C5_counterexample :
    request (.resp 429 (some { success := some false })) =
      .error ⟨.badRequestError, "Request failed", some 400,
        some { success := some false }⟩ := rfl

/--
Claim C5, amended: an HTTP 429 response whose parsed JSON body does
not carry success false raises the rate-limit error with the parsed
body attached.
-/
theorem C5_amended (data : Body) (h : data.success ≠ some false) :
    request (.resp 429 (some data)) = .error
      ⟨.rateLimitError, jsOr data.message (jsOr data.error "HTTP 429"),
        some 429, some data⟩ := by
  rw [request_resp_some, classify_not_success_false 429 data h, if_neg (by decide)]
  rfl

/-- Witness for C5_amended at the empty body. -/
theorem C5_amended_witness :
    request (.resp 429 (some {})) =
      .error ⟨.rateLimitError, "HTTP 429", some 429, some {}⟩ :=
  C5_amended {} (by decide)

/--
Claim C6, counterexample: a 400 response whose body has no message and
no error field raises the malformed-request error with the computed
message HTTP 400, not with the fixed default text Invalid request of
that variant, so the claimed fallback to the per-variant default text
is false for classified errors.
-/
theorem C6_counterexample :
    request (.resp 400 (some {})) =
      .error ⟨.badRequestError, "HTTP 400", some 400, some {}⟩ ∧
    ("HTTP 400" : String) ≠ "Invalid request" :=
  ⟨rfl, by decide⟩

/--
Claim C6, amended: for every classified error where the server supplied
no message (the parsed body has no message and no error field), the
message of the raised error is Invalid API token for the credential
error raised from a success-false body, Request failed for the
malformed-request error raised from a success-false body, and the text
HTTP followed by the literal status for every status-classified
variant; the fixed per-variant default texts of the error constructors
apply only to errors constructed with an empty message, which the
response classification never produces.
-/
theorem C6_amended (status : Nat) (data : Body) (e : RenderCADError)
    (hm : data.message = none) (he : data.error = none)
    (hr : request (.resp status (some data)) = .error e) :
    e.message =
      if data.success = some false then
        if data.token_valid = some false ∨ data.authenticated = some false then
          "Invalid API token"
        else "Request failed"
      else "HTTP " ++ toString status := by
  rw [request_resp_some] at hr
  by_cases hs : data.success = some false
  · rw [classify_success_false status data hs] at hr
    rw [if_pos hs]
    by_cases hf : data.token_valid = some false ∨ data.authenticated = some false
    · rw [if_pos hf] at hr
      rw [if_pos hf]
      injection hr with hr
      rw [← hr]
      simp [hm, jsOr]
    · rw [if_neg hf] at hr
      rw [if_neg hf]
      injection hr with hr
      rw [← hr]
      simp [hm, he, jsOr]
  · rw [classify_not_success_false status data hs] at hr
    rw [if_neg hs]
    by_cases hok : 200 ≤ status ∧ status ≤ 299
    · rw [if_pos hok] at hr
      exact absurd hr (by simp)
    · rw [if_neg hok] at hr
      injection hr with hr
      rw [← hr]
      split <;> simp [hm, he, jsOr]

/-- Witness for C6_amended at a 500 response with an empty body. -/
theorem C6_amended_witness :
    request (.resp 500 (some {})) =
      .error ⟨.serverError, "HTTP 500", some 500, some {}⟩ ∧
    (⟨.serverError, "HTTP 500", some 500, some ({} : Body)⟩ :
      RenderCADError).message = "HTTP 500" :=
  ⟨rfl, C6_amended 500 {} ⟨.serverError, "HTTP 500", some 500, some {}⟩ rfl rfl rfl⟩

/--
Claim C7, confirmed: on a client with no token configured, each of the
three token-requiring operations fails with the credential error of the
fixed local message, issues no HTTP request, and does so uniformly in
the image input, the file-system oracle, the job id and the transport
outcome, hence before any network call, image encoding or input-output.
-/
theorem C7 (c : RenderCADClient) (h : tokenPresent c = false)
    (readFile : String → Except String (List Nat)) (image : ImageInput)
    (jobId : String) (outcome : FetchOutcome) :
    tokenMissingError.name = ErrorName.unauthorizedError ∧
    renderImage c readFile image outcome =
      { httpRequest := none, result := .error (.api tokenMissingError) } ∧
    checkStatus c jobId outcome =
      { httpRequest := none, result := .error (.api tokenMissingError) } ∧
    checkAccount c outcome =
      { httpRequest := none, result := .error (.api tokenMissingError) } := by
  refine ⟨rfl, ?_, ?_, ?_⟩
  · unfold renderImage
    rw [h]
    rfl
  · unfold checkStatus
    rw [h]
    rfl
  · unfold checkAccount
    rw [h]
    rfl

/-- Witness for C7 on a tokenless client. -/
theorem C7_witness :
    tokenMissingError.name = ErrorName.unauthorizedError ∧
    renderImage ⟨none, "https://rendercad.ai"⟩ (fun _ => .error "io") .other
        (.failure "down") =
      { httpRequest := none, result := .error (.api tokenMissingError) } ∧
    checkStatus ⟨none, "https://rendercad.ai"⟩ "job1" (.failure "down") =
      { httpRequest := none, result := .error (.api tokenMissingError) } ∧
    checkAccount ⟨none, "https://rendercad.ai"⟩ (.failure "down") =
      { httpRequest := none, result := .error (.api tokenMissingError) } :=
  C7 ⟨none, "https://rendercad.ai"⟩ rfl (fun _ => .error "io") .other "job1"
    (.failure "down")

/--
Claim C8, confirmed: on a client with a token configured, checkStatus
with an empty job id and pollDeviceCode with an empty device code each
fail with the malformed-request error of the fixed local message and
issue no HTTP request, for every transport outcome.
-/
theorem C8 (c : RenderCADClient) (h : tokenPresent c = true)
    (outcome : FetchOutcome) :
    checkStatus c "" outcome =
      { httpRequest := none, result := .error (.api
          ⟨.badRequestError, "jobId is required", some 400, none⟩) } ∧
    pollDeviceCode c "" outcome =
      { httpRequest := none, result := .error (.api
          ⟨.badRequestError, "Device code is required", some 400, none⟩) } := by
  constructor
  · unfold checkStatus
    rw [h]
    rfl
  · rfl

/-- Witness for C8 on a client holding a token. -/
theorem C8_witness :
    checkStatus ⟨some "tok", "https://rendercad.ai"⟩ "" (.failure "down") =
      { httpRequest := none, result := .error (.api
          ⟨.badRequestError, "jobId is required", some 400, none⟩) } ∧
    pollDeviceCode ⟨some "tok", "https://rendercad.ai"⟩ "" (.failure "down") =
      { httpRequest := none, result := .error (.api
          ⟨.badRequestError, "Device code is required", some 400, none⟩) } :=
  C8 ⟨some "tok", "https://rendercad.ai"⟩ rfl (.failure "down")

/--
Claim C9, confirmed: the encoder returns a string that already starts
with the data-image prefix unchanged, wraps any other string with no
slash in the default jpeg data-URL prefix, and encodes a buffer as a
base64 data-URL whose MIME type is image/png when the first two bytes
are 0x89 0x50, image/gif when they are 0x47 0x49, image/webp when the
first four bytes are 0x52 0x49 0x46 0x46, and image/jpeg otherwise.
-/
theorem C9 (readFile : String → Except String (List Nat)) (s t : String)
    (p g w j : List Nat) :
    (strStartsWith s "data:image/" = true →
      encodeImage readFile (.str s) = .ok s) ∧
    (strStartsWith t "data:image/" = false → strContainsChar t '/' = false →
      encodeImage readFile (.str t) = .ok ("data:image/jpeg;base64," ++ t)) ∧
    (p[0]? = some 0x89 → p[1]? = some 0x50 →
      encodeImage readFile (.buffer p) =
        .ok ("data:image/png;base64," ++ base64Encode p)) ∧
    (g[0]? = some 0x47 → g[1]? = some 0x49 →
      encodeImage readFile (.buffer g) =
        .ok ("data:image/gif;base64," ++ base64Encode g)) ∧
    (w[0]? = some 0x52 → w[1]? = some 0x49 → w[2]? = some 0x46 →
      w[3]? = some 0x46 →
      encodeImage readFile (.buffer w) =
        .ok ("data:image/webp;base64," ++ base64Encode w)) ∧
    (¬(j[0]? = some 0x89 ∧ j[1]? = some 0x50) →
      ¬(j[0]? = some 0x47 ∧ j[1]? = some 0x49) →
      ¬(j[0]? = some 0x52 ∧ j[1]? = some 0x49 ∧ j[2]? = some 0x46 ∧
        j[3]? = some 0x46) →
      encodeImage readFile (.buffer j) =
        .ok ("data:image/jpeg;base64," ++ base64Encode j)) := by
  refine ⟨?_, ?_, ?_, ?_, ?_, ?_⟩
  · intro h1
    simp [encodeImage, h1]
  · intro h1 h2
    simp [encodeImage, h1, h2]
  · intro h1 h2
    simp only [encodeImage, sniffBufferMime]
    rw [if_pos ⟨h1, h2⟩]
    rfl
  · intro h1 h2
    simp only [encodeImage, sniffBufferMime]
    rw [if_neg (by simp [h1]), if_pos ⟨h1, h2⟩]
    rfl
  · intro h1 h2 h3 h4
    simp only [encodeImage, sniffBufferMime]
    rw [if_neg (by simp [h1]), if_neg (by simp [h1]), if_pos ⟨h1, h2, h3, h4⟩]
    rfl
  · intro h1 h2 h3
    simp only [encodeImage, sniffBufferMime]
    rw [if_neg h1, if_neg h2, if_neg h3]
    rfl

/-- Witness for C9 on all six encoder input shapes. -/
theorem C9_witness :
    encodeImage (fun _ => .error "io") (.str "data:image/png;base64,iVBO") =
      .ok "data:image/png;base64,iVBO" ∧
    encodeImage (fun _ => .error "io") (.str "QUJDRA==") =
      .ok "data:image/jpeg;base64,QUJDRA==" ∧
    encodeImage (fun _ => .error "io") (.buffer [137, 80, 1]) =
      .ok ("data:image/png;base64," ++ base64Encode [137, 80, 1]) ∧
    encodeImage (fun _ => .error "io") (.buffer [71, 73, 70]) =
      .ok ("data:image/gif;base64," ++ base64Encode [71, 73, 70]) ∧
    encodeImage (fun _ => .error "io") (.buffer [82, 73, 70, 70]) =
      .ok ("data:image/webp;base64," ++ base64Encode [82, 73, 70, 70]) ∧
    encodeImage (fun _ => .error "io") (.buffer [255, 216, 255]) =
      .ok ("data:image/jpeg;base64," ++ base64Encode [255, 216, 255]) := by
  have h := C9 (fun _ => .error "io") "data:image/png;base64,iVBO" "QUJDRA=="
    [137, 80, 1] [71, 73, 70] [82, 73, 70, 70] [255, 216, 255]
  exact ⟨h.1 (by decide), h.2.1 (by decide) (by decide), h.2.2.1 rfl rfl,
    h.2.2.2.1 rfl rfl, h.2.2.2.2.1 rfl rfl rfl rfl,
    h.2.2.2.2.2 (by decide) (by decide) (by decide)⟩

/--
Claim C10, confirmed: every error raised from a success-false body
carries as statusCode the canonical code of its variant, 401 for the
credential error and 400 for the malformed-request error, for every
HTTP status of the response, 200 included.
-/
theorem C10 (status : Nat) (data : Body) (h : data.success = some false) :
    raisedStatusCode (request (.resp status (some data))) =
      some (some (if data.token_valid = some false ∨
        data.authenticated = some false then 401 else 400)) := by
  rw [request_resp_some, classify_success_false status data h]
  by_cases hf : data.token_valid = some false ∨ data.authenticated = some false
  · rw [if_pos hf, if_pos hf]
    rfl
  · rw [if_neg hf, if_neg hf]
    rfl

/-- Witness for C10 at HTTP status 200 with token_valid false. -/
theorem C10_witness :
    raisedStatusCode (request (.resp 200
        (some { success := some false, token_valid := some false }))) =
      some (some 401) :=
  C10 200 { success := some false, token_valid := some false } rfl

end RenderCAD
